import Mathlib

/-!
Shallow embedding of `FileParser.py` (class `FileParser`): a pipeline that
loads audio files from a directory, applies a caller-supplied extraction
function to each loaded sample array, and writes the resulting matrices to
CSV files.

Modelling conventions:
* Python exceptions are `Except PyError`.
* The input-side filesystem is `FileSystem`: `os.listdir` queries applied to
  a directory path (`none` stands for the process working directory, the
  meaning `os.listdir(None)` has in Python).
* The output-side filesystem is `OutFS`: `os.path.exists` / `os.mkdir`
  state plus the contents of files written through the `csv` module.  A CSV
  file's contents are modelled as the list of rows written to it.
* `librosa.core.audio.load` called without an `sr` argument decodes and
  resamples to librosa's default rate 22050; the abstract loader `Librosa`
  supplies `loadAt path rate` (the samples of `path` decoded at `rate`) and
  `nativeRate path` (the file's native rate, `librosa.get_samplerate`).
* Sample values and matrix cells are modelled as `Int`; nothing in the
  pipeline inspects them.
* A caller-supplied `processing_function` may raise, so it returns
  `Except PyError` of a matrix; `param_dict` is an opaque argument `α`
  passed through unchanged (`**param_dict`).
-/

/-- Python exceptions that the modelled code can raise. -/
inductive PyError where
  /-- `IndexError`, raised by out-of-range list indexing `file_list[i]`. -/
  | indexError : PyError
  /-- `FileNotFoundError`, raised by `os.listdir` on a missing directory. -/
  | fileNotFoundError (path : Option String) : PyError
  /-- `RuntimeError(msg)`. -/
  | runtimeError (msg : String) : PyError
deriving DecidableEq

/-- `os.path.join(d, f)` for a directory name without trailing separator;
`none` is the working directory (joining from a bare file name). -/
def pathJoin (d : Option String) (f : String) : String :=
  match d with
  | some d => d ++ "/" ++ f
  | none => f

/-- Python's `str.endswith(suffix)` on the character sequences of the two
strings (executable model; `String.endsWith` itself is defined by
well-founded recursion and does not evaluate definitionally). -/
def strEndsWith (s suffix : String) : Bool :=
  suffix.data.isSuffixOf s.data

/-- The input-side directory structure: `listing d` is what `os.listdir`
returns for directory `d` (`none` when the directory does not exist, in
which case `os.listdir` raises `FileNotFoundError`). -/
structure FileSystem where
  listing : Option String → Option (List String)

/-- `os.listdir(d)`: the entries of `d`, or `FileNotFoundError`. -/
def listdir (fs : FileSystem) (d : Option String) : Except PyError (List String) :=
  match fs.listing d with
  | some entries => .ok entries
  | none => .error (.fileNotFoundError d)

/-- librosa's default target sample rate: `librosa.load` resamples to
22050 Hz when no `sr` argument is given. -/
def librosaDefaultSr : Nat := 22050

/-- The external audio decoder (`librosa.core.audio`): `loadAt p r` is the
sample array of file `p` decoded/resampled at rate `r`; `nativeRate p` is
the file's native sample rate (`librosa.get_samplerate`). -/
structure Librosa where
  loadAt : String → Nat → List Int
  nativeRate : String → Nat

/-- `librosa.load(path)` with no `sr` argument, as in
`temp, sr = self.librosa.load(...)` in `__init__`: decodes at librosa's
default rate 22050 and returns `(samples, 22050)`. -/
def Librosa.load (L : Librosa) (path : String) : List Int × Nat :=
  (L.loadAt path librosaDefaultSr, librosaDefaultSr)

/-- One row of a CSV file as produced by the `csv` module. -/
inductive CsvRow where
  /-- `csv.writer.writerow` applied to a row of numbers. -/
  | cells (xs : List Int) : CsvRow
  /-- `csv.DictWriter.writeheader`. -/
  | header (names : List String) : CsvRow
  /-- `csv.DictWriter.writerow` applied to a dict key (iterating a Python
  dict yields its keys); CPython raises here, a corner no specified
  behaviour reaches. -/
  | dictRow (key : String) : CsvRow
deriving DecidableEq

/-- Output-side filesystem state: `pathExists` is `os.path.exists`;
`files p` is the row list of the CSV file at path `p` (`none`: no file). -/
structure OutFS where
  pathExists : String → Bool
  files : String → Option (List CsvRow)

/-- `open(path, "w")` followed by writing `rows`: truncate then write. -/
def OutFS.writeTrunc (st : OutFS) (path : String) (rows : List CsvRow) : OutFS :=
  { st with files := fun p => if p = path then some rows else st.files p }

/-- `open(path, "a")` followed by writing `rows`: create if absent, append. -/
def OutFS.writeAppend (st : OutFS) (path : String) (rows : List CsvRow) : OutFS :=
  { st with files := fun p =>
      if p = path then some ((st.files path).getD [] ++ rows) else st.files p }

/-- The `data` argument of `write_csv`: either a 2-D array (list of rows)
or a Python dict, of which only the key list matters to the modelled code
(iterating a dict yields its keys). -/
inductive PyData where
  | matrix (rows : List (List Int)) : PyData
  | dict (keys : List String) : PyData

/-- `type(data) is dict`. -/
def PyData.isDict : PyData → Bool
  | .matrix _ => false
  | .dict _ => true

/-- The rows produced by `for x in data: writer.writerow(x)`. -/
def PyData.writerRows : PyData → List CsvRow
  | .matrix rows => rows.map CsvRow.cells
  | .dict keys => keys.map CsvRow.dictRow

/-- `list(data)` used as default `fieldnames`; for a non-dict value
reaching the dict branch (only possible when the caller passes
`data_type="dict"` with a list) the elements are rows, not names — that
corner is not reached by any extract method and is modelled as `[]`. -/
def PyData.dictKeys : PyData → List String
  | .matrix _ => []
  | .dict keys => keys

/-- The branch of `write_csv`'s `if`/`elif`/`else` chain that a given input
selects, mirroring the source's control flow:

```
if type(data) is dict and data_type != "dict": data_type = "dict"
if type(data) is not dict and fieldnames is not None: raise RuntimeError(...)
if data_type == "multi": ...open(..., "w")...
elif data_type == "dict": ...open(..., "a")...
elif data_type != "multi" or data_type != "dict": raise RuntimeError(...)
else: ...open(..., "a")...
```
-/
inductive WriteBranch where
  | fieldnamesError : WriteBranch
  | multi : WriteBranch
  | dictBranch : WriteBranch
  | keywordError : WriteBranch
  | plainAppend : WriteBranch
deriving DecidableEq

/-- Branch selection of `write_csv` (source lines 178-201). -/
def write_csv_branch (data : PyData) (data_type0 : String)
    (fieldnames : Option (List String)) : WriteBranch :=
  let data_type := if data.isDict = true ∧ data_type0 ≠ "dict" then "dict" else data_type0
  if data.isDict = false ∧ fieldnames ≠ none then .fieldnamesError
  else if data_type = "multi" then .multi
  else if data_type = "dict" then .dictBranch
  else if data_type ≠ "multi" ∨ data_type ≠ "dict" then .keywordError
  else .plainAppend

/-- `FileParser.write_csv(data, data_type, destination_dir, filename,
fieldnames=None)`:
* coerces `data_type` to `"dict"` when `data` is a dict;
* raises if `fieldnames` is given for non-dict data;
* `"multi"`: opens `destination_dir/filename` in `"w"` mode and writes one
  row per outer element of `data`;
* `"dict"`: opens in `"a"` mode, writes the header then one row per datum;
* any other keyword: raises `RuntimeError`;
* the final `else` (plain `"a"`-mode row writer) as in the source. -/
def write_csv (st : OutFS) (data : PyData) (data_type0 : String)
    (destination_dir filename : String) (fieldnames : Option (List String)) :
    Except PyError OutFS :=
  match write_csv_branch data data_type0 fieldnames with
  | .fieldnamesError =>
      .error (.runtimeError
        "fieldnaames field only applies when using a dict data type for the input data")
  | .multi =>
      .ok (st.writeTrunc (pathJoin (some destination_dir) filename) data.writerRows)
  | .dictBranch =>
      let names := fieldnames.getD data.dictKeys
      .ok (st.writeAppend (pathJoin (some destination_dir) filename)
        (CsvRow.header names :: data.writerRows))
  | .keywordError =>
      .error (.runtimeError "Supported data_types keywords are multi and dict")
  | .plainAppend =>
      .ok (st.writeAppend (pathJoin (some destination_dir) filename) data.writerRows)

/-- `FileParser.__checkpath(path)`: `os.mkdir(path)` unless
`os.path.exists(path)`. -/
def checkpath (st : OutFS) (path : String) : OutFS :=
  if st.pathExists path then st
  else { st with pathExists := fun p => if p = path then true else st.pathExists p }

/-- The pipeline object built by `FileParser.__init__`. -/
structure FileParser where
  directory : Option String
  file_extension : Option String
  /-- the loaded sample arrays, one per matching file, in listing order. -/
  data : List (List Int)
  sr : Option Nat
deriving DecidableEq

/-- The scan loop of `FileParser.__get_sample_rate`:

```
i = 0
while True:
    if file_list[i].endswith(self.file_extension): sr = get_samplerate(...); break
    elif not file_list[i].endswith(self.file_extension): i += 1
    elif i > len(file_list): raise RuntimeError(...)
return sr
```

The first two guards are complementary, so the third branch (the intended
`RuntimeError`) and the implicit fall-through can never run; when `i`
reaches `len(file_list)` the indexing `file_list[i]` raises `IndexError`. -/
def get_sample_rate_from (L : Librosa) (dir : Option String) (ext : String)
    (fileList : List String) (i : Nat) : Except PyError Nat :=
  if h : i < fileList.length then
    if strEndsWith (fileList.get ⟨i, h⟩) ext then
      .ok (L.nativeRate (pathJoin dir (fileList.get ⟨i, h⟩)))
    else
      get_sample_rate_from L dir ext fileList (i + 1)
  else .error .indexError
termination_by fileList.length - i

/-- `FileParser.__get_sample_rate()`: lists the directory and scans for the
first entry matching `self.file_extension`, reading its native rate. -/
def get_sample_rate (fs : FileSystem) (L : Librosa) (dir : Option String)
    (ext : String) : Except PyError Nat := do
  let fileList ← listdir fs dir
  get_sample_rate_from L dir ext fileList 0

/-- `FileParser.__init__(path, file_exten, sample_rate)`:
* when `sample_rate is None and file_exten == ".wav"`, auto-detects the
  rate via `__get_sample_rate` (whose `endswith` filter is
  `self.file_extension`, equal to `".wav"` in this branch);
* when both `path` and `file_exten` are given, loads every listed entry
  whose name ends with `file_exten` via `librosa.load` **with no `sr`
  argument**, appending the sample arrays in listing order. -/
def FileParser.init (fs : FileSystem) (L : Librosa) (path : Option String)
    (file_exten : Option String) (sample_rate : Option Nat) :
    Except PyError FileParser := do
  let sr ←
    if sample_rate = none ∧ file_exten = some ".wav" then do
      let r ← get_sample_rate fs L path ".wav"
      pure (some r)
    else
      pure sample_rate
  let data ←
    match path, file_exten with
    | some d, some ext => do
        let entries ← listdir fs (some d)
        pure ((entries.filter (fun f => strEndsWith f ext)).map
          (fun f => (L.load (pathJoin (some d) f)).1))
    | _, _ => pure ([] : List (List Int))
  pure { directory := path, file_extension := file_exten, data := data, sr := sr }

/-- The per-item loop of `extract_one_to_one`
(`for i, datum in enumerate(self.data)`): runs the extractor, and when
`filetype == ".csv"` writes `data.T` with keyword `"multi"` to
`filename + str(i) + filetype`. -/
def extractOneLoop {α : Type} (f : List Int → α → Except PyError (List (List Int)))
    (params : α) (destination_dir filename filetype : String) :
    List (List Int) → Nat → OutFS → Except PyError OutFS
  | [], _, st => .ok st
  | datum :: rest, i, st => do
      let data ← f datum params
      let st' ←
        if filetype = ".csv" then
          write_csv st (PyData.matrix data.transpose) "multi" destination_dir
            (filename ++ toString i ++ filetype) none
        else
          pure st
      extractOneLoop f params destination_dir filename filetype rest (i + 1) st'

/-- `FileParser.extract_one_to_one(destination_dir, processing_function,
param_dict, filename, filetype=".csv")`; `data.T` (NumPy transpose of a
rectangular 2-D array) is `List.transpose`. -/
def FileParser.extract_one_to_one {α : Type} (p : FileParser) (st : OutFS)
    (destination_dir : String) (processing_function : List Int → α → Except PyError (List (List Int)))
    (param_dict : α) (filename filetype : String) : Except PyError OutFS :=
  extractOneLoop processing_function param_dict destination_dir filename filetype
    p.data 0 (checkpath st destination_dir)

/-- The per-item loop of `extract_all_to_one` (`for datum in self.data`):
runs the extractor, and when `filetype == ".csv"` writes the untransposed
matrix with keyword `"centroid"` to `filename + filetype`. -/
def extractAllLoop {α : Type} (f : List Int → α → Except PyError (List (List Int)))
    (params : α) (destination_dir filename filetype : String) :
    List (List Int) → OutFS → Except PyError OutFS
  | [], st => .ok st
  | datum :: rest, st => do
      let data ← f datum params
      let st' ←
        if filetype = ".csv" then
          write_csv st (PyData.matrix data) "centroid" destination_dir
            (filename ++ filetype) none
        else
          pure st
      extractAllLoop f params destination_dir filename filetype rest st'

/-- `FileParser.extract_all_to_one(destination_dir, processing_function,
param_dict, filename, filetype=".csv")`. -/
def FileParser.extract_all_to_one {α : Type} (p : FileParser) (st : OutFS)
    (destination_dir : String) (processing_function : List Int → α → Except PyError (List (List Int)))
    (param_dict : α) (filename filetype : String) : Except PyError OutFS :=
  extractAllLoop processing_function param_dict destination_dir filename filetype
    p.data (checkpath st destination_dir)



/-! ### Write-sequence machinery (proof-side definitions) -/

/-- Apply a sequence of truncating (`"w"`-mode) writes in order. -/
def applyWrites (st : OutFS) : List (String × List CsvRow) → OutFS
  | [] => st
  | (p, r) :: rest => applyWrites (st.writeTrunc p r) rest

/-- The last write to path `q` in a write sequence, if any. -/
def lastWrite (q : String) : List (String × List CsvRow) → Option (List CsvRow)
  | [] => none
  | (p, r) :: rest =>
      match lastWrite q rest with
      | some r' => some r'
      | none => if q = p then some r else none

/-- The write list performed by `extract_one_to_one` in CSV mode with a
total extractor, starting at index `i`. -/
def oneToOneWrites {α : Type} (g : List Int → α → List (List Int)) (params : α)
    (destination_dir filename : String) :
    List (List Int) → Nat → List (String × List CsvRow)
  | [], _ => []
  | datum :: rest, i =>
      (pathJoin (some destination_dir) (filename ++ toString i ++ ".csv"),
        ((g datum params).transpose).map CsvRow.cells)
      :: oneToOneWrites g params destination_dir filename rest (i + 1)

/-! ### Concrete instances used in witnesses and counterexamples -/

def demoOut : OutFS := { pathExists := fun _ => false, files := fun _ => none }

def demoG : List Int → Unit → List (List Int) := fun d _ => [d ++ [5], d ++ [6]]

def demoParser : FileParser :=
  { directory := some "TestFiles", file_extension := some ".wav",
    data := [[1], [2]], sr := some 10025 }

def demoResult : OutFS :=
  applyWrites (checkpath demoOut "dest")
    (oneToOneWrites demoG () "dest" "out" demoParser.data 0)

def demoResult2 : OutFS :=
  applyWrites (checkpath demoResult "dest")
    (oneToOneWrites demoG () "dest" "out" demoParser.data 0)

/-- A directory with two `.wav` entries and one `.txt` entry in between. -/
def wavFs : FileSystem :=
  { listing := fun d =>
      if d = some "TestFiles" then some ["a.wav", "b.txt", "c.wav"] else none }

/-- A directory with no `.wav` entry. -/
def noWavFs : FileSystem :=
  { listing := fun d =>
      if d = some "TestFiles" then some ["notes.txt"] else none }

/-- A filesystem in which no directory exists. -/
def missingFs : FileSystem := { listing := fun _ => none }

/-- A loader whose output distinguishes the decode rate: samples `[2]` at
librosa's default 22050, `[1]` at any other rate; native rate 48000. -/
def demoLib : Librosa :=
  { loadAt := fun _ r => if r = librosaDefaultSr then [2] else [1],
    nativeRate := fun _ => 48000 }

/-- The pipeline object that construction over `wavFs`/`demoLib` yields. -/
def demoP7 : FileParser :=
  { directory := some "TestFiles", file_extension := some ".wav",
    data := [[2], [2]], sr := some 10025 }

/-! ### Decimal representation of `Nat`: injectivity of `toString`

`extract_one_to_one` numbers its output files with `filename + str(i)`;
distinctness of those names reduces to injectivity of the decimal
representation produced by `Nat.repr`. -/

/-- The decimal digit characters of `n`, most significant first. -/
def decDigits (n : Nat) : List Char :=
  if h : n / 10 = 0 then [Nat.digitChar (n % 10)]
  else decDigits (n / 10) ++ [Nat.digitChar (n % 10)]
termination_by n
decreasing_by
  exact Nat.div_lt_self (Nat.pos_of_ne_zero (fun hn => h (by rw [hn]))) (by decide)

theorem decDigits_ne_nil (n : Nat) : decDigits n ≠ [] := by
  rw [decDigits]
  split <;> simp

theorem toDigitsCore_eq_decDigits (fuel : Nat) :
    ∀ n ds, n < fuel → Nat.toDigitsCore 10 fuel n ds = decDigits n ++ ds := by
  induction fuel with
  | zero => intro n ds h; omega
  | succ fuel ih =>
    intro n ds h
    rw [Nat.toDigitsCore, decDigits]
    by_cases h0 : n / 10 = 0
    · rw [if_pos h0, dif_pos h0]
      rfl
    · rw [if_neg h0, dif_neg h0]
      rw [ih (n / 10) (Nat.digitChar (n % 10) :: ds)]
      · rw [List.append_assoc]
        rfl
      · calc n / 10 < n := Nat.div_lt_self (Nat.pos_of_ne_zero (fun hn => h0 (by rw [hn]))) (by decide)
          _ ≤ fuel := by omega

theorem toDigits_eq_decDigits (n : Nat) : Nat.toDigits 10 n = decDigits n := by
  rw [Nat.toDigits, toDigitsCore_eq_decDigits (n + 1) n [] (Nat.lt_succ_self n)]
  exact List.append_nil _

theorem digitChar_inj_lt : ∀ a, a < 10 → ∀ b, b < 10 →
    Nat.digitChar a = Nat.digitChar b → a = b := by decide

theorem decDigits_eq_of_lt {n : Nat} (h : n / 10 = 0) :
    decDigits n = [Nat.digitChar (n % 10)] := by
  rw [decDigits, dif_pos h]

theorem decDigits_eq_of_ge {n : Nat} (h : ¬n / 10 = 0) :
    decDigits n = decDigits (n / 10) ++ [Nat.digitChar (n % 10)] := by
  conv_lhs => rw [decDigits]
  rw [dif_neg h]

theorem decDigits_inj : ∀ m n : Nat, decDigits m = decDigits n → m = n := by
  intro m
  induction m using Nat.strong_induction_on with
  | _ m ih =>
    intro n h
    by_cases hm : m / 10 = 0 <;> by_cases hn : n / 10 = 0
    · rw [decDigits_eq_of_lt hm, decDigits_eq_of_lt hn] at h
      have hd : m % 10 = n % 10 :=
        digitChar_inj_lt _ (Nat.mod_lt _ (by decide)) _ (Nat.mod_lt _ (by decide))
          (List.head_eq_of_cons_eq h)
      omega
    · rw [decDigits_eq_of_lt hm, decDigits_eq_of_ge hn] at h
      have hl := congrArg List.length h
      simp only [List.length_append, List.length_cons, List.length_nil] at hl
      have hz : (decDigits (n / 10)).length = 0 := by omega
      exact absurd (List.length_eq_zero.mp hz) (decDigits_ne_nil _)
    · rw [decDigits_eq_of_ge hm, decDigits_eq_of_lt hn] at h
      have hl := congrArg List.length h
      simp only [List.length_append, List.length_cons, List.length_nil] at hl
      have hz : (decDigits (m / 10)).length = 0 := by omega
      exact absurd (List.length_eq_zero.mp hz) (decDigits_ne_nil _)
    · rw [decDigits_eq_of_ge hm, decDigits_eq_of_ge hn] at h
      have hlen : (decDigits (m / 10)).length = (decDigits (n / 10)).length := by
        have := congrArg List.length h
        simp at this
        omega
      obtain ⟨h1, h2⟩ := List.append_inj h hlen
      have hq : m / 10 = n / 10 :=
        ih (m / 10)
          (Nat.div_lt_self (Nat.pos_of_ne_zero (fun hz => hm (by rw [hz]))) (by decide))
          (n / 10) h1
      have hr : m % 10 = n % 10 :=
        digitChar_inj_lt _ (Nat.mod_lt _ (by decide)) _ (Nat.mod_lt _ (by decide))
          (List.head_eq_of_cons_eq h2)
      omega

theorem natToString_inj {m n : Nat} (h : toString m = toString n) : m = n := by
  have hd : Nat.toDigits 10 m = Nat.toDigits 10 n := congrArg String.data h
  rw [toDigits_eq_decDigits, toDigits_eq_decDigits] at hd
  exact decDigits_inj m n hd

/-- The per-index output file names of `extract_one_to_one` are pairwise
distinct. -/
theorem oneToOnePath_inj (dest fname ext : String) {i j : Nat}
    (h : pathJoin (some dest) (fname ++ toString i ++ ext)
       = pathJoin (some dest) (fname ++ toString j ++ ext)) : i = j := by
  apply natToString_inj
  have hd := congrArg String.data h
  simp only [pathJoin, String.data_append, List.append_assoc,
    List.append_cancel_left_eq] at hd
  exact congrArg List.asString (List.append_cancel_right hd)

/-! ### Write-sequence semantics

`extract_one_to_one` in CSV mode performs a straight-line sequence of
truncating writes; its effect on the output filesystem is characterised by
the last write to each path. -/



theorem writeTrunc_pathExists (st : OutFS) (p : String) (r : List CsvRow) :
    (st.writeTrunc p r).pathExists = st.pathExists := rfl

theorem checkpath_files (st : OutFS) (d : String) :
    (checkpath st d).files = st.files := by
  unfold checkpath
  split <;> rfl

theorem checkpath_pathExists_self (st : OutFS) (d : String) :
    (checkpath st d).pathExists d = true := by
  unfold checkpath
  split
  · assumption
  · simp

theorem applyWrites_files (W : List (String × List CsvRow)) :
    ∀ (st : OutFS) (q : String),
      (applyWrites st W).files q =
        match lastWrite q W with
        | some r => some r
        | none => st.files q := by
  induction W with
  | nil => intro st q; rfl
  | cons w rest ih =>
    intro st q
    obtain ⟨p, r⟩ := w
    rw [applyWrites, lastWrite, ih]
    cases hL : lastWrite q rest with
    | some r' => rfl
    | none =>
      show (st.writeTrunc p r).files q = _
      unfold OutFS.writeTrunc
      by_cases hq : q = p
      · simp [hq]
      · simp [hq]


theorem extractOneLoop_csv {α : Type} (g : List Int → α → List (List Int))
    (params : α) (dest fname : String) :
    ∀ (data : List (List Int)) (i : Nat) (st : OutFS),
      extractOneLoop (fun d a => .ok (g d a)) params dest fname ".csv" data i st
        = .ok (applyWrites st (oneToOneWrites g params dest fname data i)) := by
  intro data
  induction data with
  | nil => intro i st; rfl
  | cons d rest ih =>
    intro i st
    rw [extractOneLoop, oneToOneWrites, applyWrites]
    show (write_csv st (PyData.matrix (g d params).transpose) "multi" dest
        (fname ++ toString i ++ ".csv") none).bind _ = _
    rw [write_csv]
    show Except.bind (Except.ok _) _ = _
    rw [Except.bind]
    exact ih (i + 1) _

theorem lastWrite_oneToOneWrites_miss {α : Type} (g : List Int → α → List (List Int))
    (params : α) (dest fname : String) :
    ∀ (data : List (List Int)) (i0 : Nat) (q : String),
      (∀ k, k < data.length →
        q ≠ pathJoin (some dest) (fname ++ toString (i0 + k) ++ ".csv")) →
      lastWrite q (oneToOneWrites g params dest fname data i0) = none := by
  intro data
  induction data with
  | nil => intro i0 q _; rfl
  | cons d rest ih =>
    intro i0 q hq
    rw [oneToOneWrites, lastWrite]
    rw [ih (i0 + 1) q (fun k hk => by
      have := hq (k + 1) (by simpa using Nat.succ_lt_succ hk)
      simpa [Nat.add_assoc, Nat.add_comm 1 k] using this)]
    have h0 := hq 0 (by simp)
    simp only [Nat.add_zero] at h0
    rw [if_neg h0]

theorem lastWrite_oneToOneWrites_hit {α : Type} (g : List Int → α → List (List Int))
    (params : α) (dest fname : String) :
    ∀ (data : List (List Int)) (i0 k : Nat) (d : List Int),
      data[k]? = some d →
      lastWrite (pathJoin (some dest) (fname ++ toString (i0 + k) ++ ".csv"))
          (oneToOneWrites g params dest fname data i0)
        = some (((g d params).transpose).map CsvRow.cells) := by
  intro data
  induction data with
  | nil => intro i0 k d h; simp at h
  | cons d0 rest ih =>
    intro i0 k d h
    rw [oneToOneWrites, lastWrite]
    cases k with
    | zero =>
      simp only [List.getElem?_cons_zero, Option.some.injEq] at h
      subst h
      rw [lastWrite_oneToOneWrites_miss g params dest fname rest (i0 + 1) _ (fun k hk hcontra => by
        have := oneToOnePath_inj dest fname ".csv" hcontra
        omega)]
      rw [Nat.add_zero, if_pos rfl]
    | succ k' =>
      simp only [List.getElem?_cons_succ] at h
      have := ih (i0 + 1) k' d h
      rw [show i0 + (k' + 1) = i0 + 1 + k' by omega]
      rw [this]

/-! ### Claim theorems -/

/-- **C4**: with the default `".csv"` extension, `extract_one_to_one` on a
corpus of `N` items produces exactly the `N` files
`destination_dir/(filename + str(i) + ".csv")` for `i = 0..N-1` — each
containing exactly the rows of `transpose(extractor(item_i))`, written in
overwrite mode (contents independent of any prior file at that path) — and
touches no other path; numbering mirrors load order. -/
theorem claim_C4_one_to_one_files {α : Type} (p : FileParser) (st : OutFS)
    (dest : String) (g : List Int → α → List (List Int)) (params : α)
    (fname : String) (st' : OutFS)
    (h : p.extract_one_to_one st dest (fun d a => .ok (g d a)) params fname ".csv"
        = .ok st') :
    (∀ (i : Nat) (d : List Int), p.data[i]? = some d →
        st'.files (pathJoin (some dest) (fname ++ toString i ++ ".csv"))
          = some (((g d params).transpose).map CsvRow.cells))
    ∧ (∀ q, (∀ i, i < p.data.length →
          q ≠ pathJoin (some dest) (fname ++ toString i ++ ".csv")) →
        st'.files q = st.files q) := by
  rw [FileParser.extract_one_to_one, extractOneLoop_csv] at h
  cases h
  constructor
  · intro i d hd
    rw [applyWrites_files]
    have hhit := lastWrite_oneToOneWrites_hit g params dest fname p.data 0 i d hd
    rw [Nat.zero_add] at hhit
    rw [hhit]
  · intro q hq
    rw [applyWrites_files]
    rw [lastWrite_oneToOneWrites_miss g params dest fname p.data 0 q
      (fun k hk => by simpa using hq k hk)]
    rw [checkpath_files]



theorem claim_C4_witness :
    demoParser.data[0]? = some [1]
    ∧ demoResult.files (pathJoin (some "dest") ("out" ++ toString 0 ++ ".csv"))
        = some [CsvRow.cells [1, 1], CsvRow.cells [5, 6]]
    ∧ demoResult.files "unrelated" = none := by
  have h := claim_C4_one_to_one_files demoParser demoOut "dest" demoG () "out"
    demoResult (by rw [FileParser.extract_one_to_one, extractOneLoop_csv]; rfl)
  refine ⟨rfl, ?_, ?_⟩
  · rw [h.1 0 [1] rfl]
    rfl
  · rw [h.2 "unrelated" (by decide)]
    rfl

/-- **C8**: re-running `extract_one_to_one` with the same destination, base
name and deterministic extractor leaves exactly the same output file
contents as running it once — the second run overwrites identically. -/
theorem claim_C8_one_to_one_idempotent {α : Type} (p : FileParser) (st : OutFS)
    (dest : String) (g : List Int → α → List (List Int)) (params : α)
    (fname : String) (st1 st2 : OutFS)
    (h1 : p.extract_one_to_one st dest (fun d a => .ok (g d a)) params fname ".csv"
        = .ok st1)
    (h2 : p.extract_one_to_one st1 dest (fun d a => .ok (g d a)) params fname ".csv"
        = .ok st2) :
    st2.files = st1.files := by
  rw [FileParser.extract_one_to_one, extractOneLoop_csv] at h1
  cases h1
  rw [FileParser.extract_one_to_one, extractOneLoop_csv] at h2
  cases h2
  funext q
  simp only [applyWrites_files]
  cases hL : lastWrite q (oneToOneWrites g params dest fname p.data 0) with
  | some r => rfl
  | none =>
    rw [checkpath_files, checkpath_files]
    simp only [applyWrites_files, hL, checkpath_files]


theorem claim_C8_witness : demoResult2.files = demoResult.files :=
  claim_C8_one_to_one_idempotent demoParser demoOut "dest" demoG () "out"
    demoResult demoResult2
    (by rw [FileParser.extract_one_to_one, extractOneLoop_csv]; rfl)
    (by rw [FileParser.extract_one_to_one, extractOneLoop_csv]; rfl)

/-- **C1** (documents the code bug): on any non-empty corpus,
`extract_all_to_one` with the default `".csv"` extension does **not**
produce the shared append-mode file the spec describes: `write_csv` is
called with keyword `"centroid"`, and since the guard
`data_type != "multi" or data_type != "dict"` is a tautology, the call
raises `RuntimeError` on the very first item, writing nothing. -/
theorem claim_C1_all_to_one_raises {α : Type} (p : FileParser) (st : OutFS)
    (dest : String) (g : List Int → α → List (List Int)) (params : α)
    (fname : String) (h : p.data ≠ []) :
    p.extract_all_to_one st dest (fun d a => .ok (g d a)) params fname ".csv"
      = .error (.runtimeError "Supported data_types keywords are multi and dict") := by
  rw [FileParser.extract_all_to_one]
  cases hd : p.data with
  | nil => exact absurd hd h
  | cons d rest => rfl

theorem claim_C1_witness :
    demoParser.data ≠ []
    ∧ demoParser.extract_all_to_one demoOut "centroid_test3"
        (fun d a => .ok (demoG d a)) () "samp" ".csv"
      = .error (.runtimeError "Supported data_types keywords are multi and dict") :=
  ⟨by decide,
    claim_C1_all_to_one_raises demoParser demoOut "centroid_test3" demoG () "samp"
      (by decide)⟩

/-- **C9**: for every non-dict `data` value and every `data_type` keyword
other than `"multi"` and `"dict"`, `write_csv` raises `RuntimeError`
without opening any file (the one possible other outcome on that path, a
supplied `fieldnames` for non-dict data, is also a `RuntimeError` raised
before any file is opened); and the final `else` branch of `write_csv`
(the plain append-mode writer) is selected for no input whatsoever, since
the guard `data_type != "multi" or data_type != "dict"` is a tautology. -/
theorem claim_C9_keyword_guard :
    (∀ (st : OutFS) (data : PyData) (dt dest fn : String) (fld : Option (List String)),
      data.isDict = false → dt ≠ "multi" → dt ≠ "dict" →
        write_csv st data dt dest fn fld
            = .error (.runtimeError
                "fieldnaames field only applies when using a dict data type for the input data")
        ∨ write_csv st data dt dest fn fld
            = .error (.runtimeError "Supported data_types keywords are multi and dict"))
    ∧ ∀ (data : PyData) (dt : String) (fld : Option (List String)),
        write_csv_branch data dt fld ≠ WriteBranch.plainAppend := by
  constructor
  · intro st data dt dest fn fld hdict hm hd
    cases fld with
    | some l =>
      left
      rw [write_csv]
      have hb : write_csv_branch data dt (some l) = .fieldnamesError := by
        rw [write_csv_branch]
        simp [hdict]
      rw [hb]
    | none =>
      right
      rw [write_csv]
      have hb : write_csv_branch data dt none = .keywordError := by
        rw [write_csv_branch]
        simp [hdict, hm, hd]
      rw [hb]
  · intro data dt fld
    rw [write_csv_branch]
    by_cases h1 : data.isDict = false ∧ fld ≠ none
    · simp only [if_pos h1]
      simp
    · rw [if_neg h1]
      by_cases h2 : (if data.isDict = true ∧ dt ≠ "dict" then "dict" else dt) = "multi"
      · rw [if_pos h2]
        simp
      · rw [if_neg h2]
        by_cases h3 : (if data.isDict = true ∧ dt ≠ "dict" then "dict" else dt) = "dict"
        · rw [if_pos h3]
          simp
        · rw [if_neg h3, if_pos (Or.inl h2)]
          simp

theorem claim_C9_witness :
    (PyData.matrix [[1]]).isDict = false
    ∧ (write_csv demoOut (PyData.matrix [[1]]) "centroid" "d" "f" none
          = .error (.runtimeError
              "fieldnaames field only applies when using a dict data type for the input data")
        ∨ write_csv demoOut (PyData.matrix [[1]]) "centroid" "d" "f" none
          = .error (.runtimeError "Supported data_types keywords are multi and dict"))
    ∧ write_csv_branch (PyData.matrix [[1]]) "centroid" none ≠ WriteBranch.plainAppend :=
  ⟨rfl,
    claim_C9_keyword_guard.1 demoOut (PyData.matrix [[1]]) "centroid" "d" "f" none
      rfl (by decide) (by decide),
    claim_C9_keyword_guard.2 (PyData.matrix [[1]]) "centroid" none⟩

theorem extractOneLoop_noncsv {α : Type}
    (f : List Int → α → Except PyError (List (List Int)))
    (params : α) (dest fname ftype : String) (hf : ftype ≠ ".csv") :
    ∀ (data : List (List Int)) (i : Nat) (st : OutFS),
      extractOneLoop f params dest fname ftype data i st
        = Except.map (fun _ => st) (data.mapM (fun d => f d params)) := by
  intro data
  induction data with
  | nil => intro i st; rfl
  | cons d rest ih =>
    intro i st
    rw [extractOneLoop, List.mapM_cons]
    cases hfd : f d params with
    | error e => simp only [hfd]; rfl
    | ok m =>
      simp only [hfd]
      show (if ftype = ".csv" then _
            else extractOneLoop f params dest fname ftype rest (i + 1) st) = _
      rw [if_neg hf, ih]
      cases hM : rest.mapM (fun d => f d params) with
      | error e => rfl
      | ok ms => rfl

theorem extractAllLoop_noncsv {α : Type}
    (f : List Int → α → Except PyError (List (List Int)))
    (params : α) (dest fname ftype : String) (hf : ftype ≠ ".csv") :
    ∀ (data : List (List Int)) (st : OutFS),
      extractAllLoop f params dest fname ftype data st
        = Except.map (fun _ => st) (data.mapM (fun d => f d params)) := by
  intro data
  induction data with
  | nil => intro st; rfl
  | cons d rest ih =>
    intro st
    rw [extractAllLoop, List.mapM_cons]
    cases hfd : f d params with
    | error e => simp only [hfd]; rfl
    | ok m =>
      simp only [hfd]
      show (if ftype = ".csv" then _
            else extractAllLoop f params dest fname ftype rest st) = _
      rw [if_neg hf, ih]
      cases hM : rest.mapM (fun d => f d params) with
      | error e => rfl
      | ok ms => rfl

theorem mapM_extractor_ok {α : Type} (g : List Int → α → List (List Int)) (params : α) :
    ∀ data : List (List Int),
      data.mapM (fun d => (Except.ok (g d params) : Except PyError (List (List Int))))
        = .ok (data.map (fun d => g d params)) := by
  intro data
  induction data with
  | nil => rfl
  | cons d rest ih => rw [List.mapM_cons, ih]; rfl

/-- **C10**: for any output extension other than `".csv"`, both
`extract_one_to_one` and `extract_all_to_one` still create the destination
directory if absent and still run the extractor on every corpus item in
order — the first extractor failure propagates unchanged — while writing no
output file (the file map is untouched). -/
theorem claim_C10_noncsv_still_runs {α : Type} (p : FileParser) (st : OutFS)
    (dest : String) (f : List Int → α → Except PyError (List (List Int)))
    (params : α) (fname ftype : String) (h : ftype ≠ ".csv") :
    p.extract_one_to_one st dest f params fname ftype
        = Except.map (fun _ => checkpath st dest) (p.data.mapM (fun d => f d params))
    ∧ p.extract_all_to_one st dest f params fname ftype
        = Except.map (fun _ => checkpath st dest) (p.data.mapM (fun d => f d params))
    ∧ (checkpath st dest).pathExists dest = true
    ∧ (checkpath st dest).files = st.files := by
  refine ⟨?_, ?_, checkpath_pathExists_self st dest, checkpath_files st dest⟩
  · rw [FileParser.extract_one_to_one, extractOneLoop_noncsv f params dest fname ftype h]
  · rw [FileParser.extract_all_to_one, extractAllLoop_noncsv f params dest fname ftype h]

theorem claim_C10_witness :
    (".txt" : String) ≠ ".csv"
    ∧ demoParser.extract_one_to_one demoOut "mfcc_test"
        (fun d a => .ok (demoG d a)) () "samps" ".txt"
        = Except.map (fun _ => checkpath demoOut "mfcc_test")
            (demoParser.data.mapM (fun d => Except.ok (demoG d ())))
    ∧ demoParser.extract_all_to_one demoOut "mfcc_test"
        (fun d a => .ok (demoG d a)) () "samps" ".txt"
        = Except.map (fun _ => checkpath demoOut "mfcc_test")
            (demoParser.data.mapM (fun d => Except.ok (demoG d ())))
    ∧ (checkpath demoOut "mfcc_test").pathExists "mfcc_test" = true
    ∧ (checkpath demoOut "mfcc_test").files = demoOut.files := by
  have h := claim_C10_noncsv_still_runs demoParser demoOut "mfcc_test"
    (fun d a => .ok (demoG d a)) () "samps" ".txt" (by decide)
  exact ⟨by decide, h.1, h.2.1, h.2.2.1, h.2.2.2⟩

/-- **C2** as stated is false: requesting a non-`".csv"` output extension
does **not** raise — there is no `UnsupportedOutputFormat` anywhere in the
code.  At this concrete input both extraction calls return normally having
written nothing. -/
theorem claim_C2_counterexample :
    demoParser.extract_one_to_one demoOut "dest"
        (fun d a => .ok (demoG d a)) () "out" ".txt"
      = .ok (checkpath demoOut "dest")
    ∧ demoParser.extract_all_to_one demoOut "dest"
        (fun d a => .ok (demoG d a)) () "out" ".txt"
      = .ok (checkpath demoOut "dest")
    ∧ (checkpath demoOut "dest").files "dest/out.txt" = none
    ∧ (checkpath demoOut "dest").files "dest/out0.txt" = none :=
  ⟨rfl, rfl, rfl, rfl⟩

/-- **C2 (amended)**: for every requested output extension other than
`".csv"`, `extract_one_to_one` and `extract_all_to_one` write nothing —
but no exception is raised: with a total extractor both calls return
normally (only the destination directory is materialised), silently
skipping every write. -/
theorem claim_C2_amended_silent_skip {α : Type} (p : FileParser) (st : OutFS)
    (dest : String) (g : List Int → α → List (List Int)) (params : α)
    (fname ftype : String) (h : ftype ≠ ".csv") :
    p.extract_one_to_one st dest (fun d a => .ok (g d a)) params fname ftype
        = .ok (checkpath st dest)
    ∧ p.extract_all_to_one st dest (fun d a => .ok (g d a)) params fname ftype
        = .ok (checkpath st dest)
    ∧ (checkpath st dest).files = st.files := by
  refine ⟨?_, ?_, checkpath_files st dest⟩
  · rw [FileParser.extract_one_to_one,
      extractOneLoop_noncsv _ params dest fname ftype h, mapM_extractor_ok]
    rfl
  · rw [FileParser.extract_all_to_one,
      extractAllLoop_noncsv _ params dest fname ftype h, mapM_extractor_ok]
    rfl

theorem claim_C2_witness :
    (".wav" : String) ≠ ".csv"
    ∧ (demoParser.extract_one_to_one demoOut "d2"
          (fun d a => .ok (demoG d a)) () "w" ".wav"
        = .ok (checkpath demoOut "d2")
      ∧ demoParser.extract_all_to_one demoOut "d2"
          (fun d a => .ok (demoG d a)) () "w" ".wav"
        = .ok (checkpath demoOut "d2")
      ∧ (checkpath demoOut "d2").files = demoOut.files) :=
  ⟨by decide,
    claim_C2_amended_silent_skip demoParser demoOut "d2" demoG () "w" ".wav" (by decide)⟩

theorem get_sample_rate_from_no_match (L : Librosa) (dir : Option String) (ext : String)
    (fileList : List String) (hall : ∀ f ∈ fileList, strEndsWith f ext = false) :
    ∀ i, get_sample_rate_from L dir ext fileList i = .error .indexError := by
  have key : ∀ k i, fileList.length - i ≤ k →
      get_sample_rate_from L dir ext fileList i = .error .indexError := by
    intro k
    induction k with
    | zero =>
      intro i hi
      rw [get_sample_rate_from, dif_neg (by omega)]
    | succ k ih =>
      intro i hi
      rw [get_sample_rate_from]
      by_cases h : i < fileList.length
      · rw [dif_pos h]
        have hf : strEndsWith fileList[i] ext = false := hall _ (List.getElem_mem h)
        rw [if_neg (by simp [hf])]
        exact ih (i + 1) (by omega)
      · rw [dif_neg h]
  intro i
  exact key (fileList.length - i) i (by omega)

theorem init_given_rate (fs : FileSystem) (L : Librosa) (d e : String) (r : Nat)
    (files : List String) (hl : fs.listing (some d) = some files) :
    FileParser.init fs L (some d) (some e) (some r)
      = .ok { directory := some d, file_extension := some e,
              data := (files.filter (fun f => strEndsWith f e)).map
                (fun f => L.loadAt (pathJoin (some d) f) librosaDefaultSr),
              sr := some r } := by
  rw [FileParser.init, if_neg (by simp)]
  simp only [listdir, hl]
  rfl

theorem init_no_rate_non_wav (fs : FileSystem) (L : Librosa) (d e : String)
    (files : List String) (he : e ≠ ".wav") (hl : fs.listing (some d) = some files) :
    FileParser.init fs L (some d) (some e) none
      = .ok { directory := some d, file_extension := some e,
              data := (files.filter (fun f => strEndsWith f e)).map
                (fun f => L.loadAt (pathJoin (some d) f) librosaDefaultSr),
              sr := none } := by
  rw [FileParser.init, if_neg (by simp [he])]
  simp only [listdir, hl]
  rfl

theorem init_wav_autodetect (fs : FileSystem) (L : Librosa) (d : String)
    (files : List String) (hl : fs.listing (some d) = some files) :
    FileParser.init fs L (some d) (some ".wav") none
      = Except.map (fun v =>
          { directory := some d, file_extension := some ".wav",
            data := (files.filter (fun f => strEndsWith f ".wav")).map
              (fun f => L.loadAt (pathJoin (some d) f) librosaDefaultSr),
            sr := some v })
          (get_sample_rate fs L (some d) ".wav") := by
  rw [FileParser.init, if_pos ⟨rfl, rfl⟩]
  cases hg : get_sample_rate fs L (some d) ".wav" with
  | error err => rfl
  | ok v => simp only [listdir, hl]; rfl

/-- **C3** (documents the code bug): when no rate is supplied, the filter
is `".wav"` and no listed entry matches it, construction fails — but with
`IndexError` from `file_list[i]` running past the end of the listing, not
with the intended configuration error: the `RuntimeError` branch of
`__get_sample_rate` sits after two complementary guards and can never
execute. -/
theorem claim_C3_no_wav_index_error (fs : FileSystem) (L : Librosa)
    (path : Option String) (files : List String)
    (hl : fs.listing path = some files)
    (hall : ∀ f ∈ files, strEndsWith f ".wav" = false) :
    FileParser.init fs L path (some ".wav") none = .error .indexError := by
  have hg : get_sample_rate fs L path ".wav" = .error .indexError := by
    rw [get_sample_rate]
    show Except.bind (listdir fs path) _ = _
    simp only [listdir, hl, Except.bind]
    exact get_sample_rate_from_no_match L path ".wav" files hall 0
  rw [FileParser.init, if_pos ⟨rfl, rfl⟩]
  simp only [hg]
  rfl

theorem claim_C3_witness :
    noWavFs.listing (some "TestFiles") = some ["notes.txt"]
    ∧ (∀ f ∈ ["notes.txt"], strEndsWith f ".wav" = false)
    ∧ FileParser.init noWavFs demoLib (some "TestFiles") (some ".wav") none
        = .error .indexError :=
  ⟨rfl, by decide,
    claim_C3_no_wav_index_error noWavFs demoLib (some "TestFiles") ["notes.txt"]
      rfl (by decide)⟩

/-- **C5** as stated is false at this input: the pipeline is constructed
with an explicit sample rate of 44100, yet the samples stored in the
corpus are the ones the loader produces at its default rate 22050
(`[2]` per matching file), not the ones at the supplied rate (`[1]` per
matching file): `librosa.load` is called with no `sr` argument. -/
theorem claim_C5_counterexample :
    FileParser.init wavFs demoLib (some "TestFiles") (some ".wav") (some 44100)
      = .ok { directory := some "TestFiles", file_extension := some ".wav",
              data := [[2], [2]], sr := some 44100 }
    ∧ demoLib.loadAt (pathJoin (some "TestFiles") "a.wav") 44100 = [1]
    ∧ demoLib.loadAt (pathJoin (some "TestFiles") "a.wav") librosaDefaultSr = [2]
    ∧ ([[2], [2]] : List (List Int)) ≠ [[1], [1]] :=
  ⟨rfl, rfl, rfl, by decide⟩

/-- **C5 (amended)**: every matching file is loaded at the **loader's
default rate** (librosa's 22050), with resampling to that default —
regardless of whether a sample rate was supplied or auto-detected;
`load` is never passed a rate.  Concretely: (1) with a supplied rate `r`,
the corpus is loaded at the default rate while `some r` is stored in the
`sr` attribute; (2) with no supplied rate, whenever construction
succeeds (any extension, hence also the `".wav"` auto-detect path), the
corpus is likewise loaded at the default rate; (3) with no supplied rate
and the `".wav"` filter, a successful auto-detection stores the detected
native rate in `sr` — and the corpus is still loaded at the default
rate, not at the detected one. -/
theorem claim_C5_loads_at_default_rate (fs : FileSystem) (L : Librosa)
    (d e : String) (files : List String)
    (hl : fs.listing (some d) = some files) :
    (∀ r : Nat, FileParser.init fs L (some d) (some e) (some r)
        = .ok { directory := some d, file_extension := some e,
                data := (files.filter (fun f => strEndsWith f e)).map
                  (fun f => L.loadAt (pathJoin (some d) f) librosaDefaultSr),
                sr := some r })
    ∧ (∀ p : FileParser, FileParser.init fs L (some d) (some e) none = .ok p →
        p.data = (files.filter (fun f => strEndsWith f e)).map
          (fun f => L.loadAt (pathJoin (some d) f) librosaDefaultSr))
    ∧ (∀ v : Nat, get_sample_rate fs L (some d) ".wav" = .ok v →
        FileParser.init fs L (some d) (some ".wav") none
          = .ok { directory := some d, file_extension := some ".wav",
                  data := (files.filter (fun f => strEndsWith f ".wav")).map
                    (fun f => L.loadAt (pathJoin (some d) f) librosaDefaultSr),
                  sr := some v }) := by
  refine ⟨fun r => init_given_rate fs L d e r files hl, ?_, ?_⟩
  · intro p h
    by_cases he : e = ".wav"
    · subst he
      rw [init_wav_autodetect fs L d files hl] at h
      cases hg : get_sample_rate fs L (some d) ".wav" with
      | error err =>
        rw [hg] at h
        exact Except.noConfusion h
      | ok v =>
        rw [hg] at h
        have := Except.ok.inj h
        rw [← this]
    · rw [init_no_rate_non_wav fs L d e files he hl] at h
      have := Except.ok.inj h
      rw [← this]
  · intro v hg
    rw [init_wav_autodetect fs L d files hl, hg]
    rfl

theorem get_sample_rate_wavFs :
    get_sample_rate wavFs demoLib (some "TestFiles") ".wav" = .ok 48000 := by
  rw [get_sample_rate]
  show Except.bind (listdir wavFs (some "TestFiles")) _ = _
  rw [show listdir wavFs (some "TestFiles") = .ok ["a.wav", "b.txt", "c.wav"]
    from rfl]
  show get_sample_rate_from demoLib (some "TestFiles") ".wav"
      ["a.wav", "b.txt", "c.wav"] 0 = _
  rw [get_sample_rate_from,
    dif_pos (show 0 < ["a.wav", "b.txt", "c.wav"].length by decide),
    if_pos (by decide)]
  rfl

theorem claim_C5_witness :
    wavFs.listing (some "TestFiles") = some ["a.wav", "b.txt", "c.wav"]
    ∧ FileParser.init wavFs demoLib (some "TestFiles") (some ".wav") (some 44100)
        = .ok { directory := some "TestFiles", file_extension := some ".wav",
                data := ((["a.wav", "b.txt", "c.wav"].filter
                    (fun f => strEndsWith f ".wav")).map
                  (fun f => demoLib.loadAt (pathJoin (some "TestFiles") f)
                    librosaDefaultSr)),
                sr := some 44100 }
    ∧ get_sample_rate wavFs demoLib (some "TestFiles") ".wav" = .ok 48000
    ∧ FileParser.init wavFs demoLib (some "TestFiles") (some ".wav") none
        = .ok { directory := some "TestFiles", file_extension := some ".wav",
                data := ((["a.wav", "b.txt", "c.wav"].filter
                    (fun f => strEndsWith f ".wav")).map
                  (fun f => demoLib.loadAt (pathJoin (some "TestFiles") f)
                    librosaDefaultSr)),
                sr := some 48000 } :=
  ⟨rfl,
    (claim_C5_loads_at_default_rate wavFs demoLib "TestFiles" ".wav"
      ["a.wav", "b.txt", "c.wav"] rfl).1 44100,
    get_sample_rate_wavFs,
    (claim_C5_loads_at_default_rate wavFs demoLib "TestFiles" ".wav"
      ["a.wav", "b.txt", "c.wav"] rfl).2.2 48000 get_sample_rate_wavFs⟩

/-- **C6** as stated is false: constructing the pipeline on a directory
that does not exist does not succeed with an empty corpus — `os.listdir`
raises `FileNotFoundError` inside `__init__`. -/
theorem claim_C6_counterexample :
    FileParser.init missingFs demoLib (some "missing") (some ".wav") (some 100)
      = .error (.fileNotFoundError (some "missing")) := rfl

/-- **C6 (amended)**: for every directory path that does not exist (with a
file-extension filter supplied), construction raises the loader-side
filesystem error from `os.listdir`; the empty-corpus/no-error behaviour
only applies when the directory exists but no entry matches (or when path
or extension is `None`). -/
theorem claim_C6_missing_dir_raises (fs : FileSystem) (L : Librosa)
    (d e : String) (r0 : Option Nat) (hl : fs.listing (some d) = none) :
    FileParser.init fs L (some d) (some e) r0
      = .error (.fileNotFoundError (some d)) := by
  by_cases hc : r0 = none ∧ (some e : Option String) = some ".wav"
  · have hg : get_sample_rate fs L (some d) ".wav"
        = .error (.fileNotFoundError (some d)) := by
      rw [get_sample_rate]
      show Except.bind (listdir fs (some d)) _ = _
      simp only [listdir, hl, Except.bind]
    rw [FileParser.init, if_pos hc]
    obtain ⟨h1, h2⟩ := hc
    have he : e = ".wav" := by injection h2
    subst he
    simp only [hg]
    rfl
  · rw [FileParser.init, if_neg hc]
    simp only [listdir, hl]
    rfl

theorem claim_C6_witness :
    missingFs.listing (some "nodir") = none
    ∧ FileParser.init missingFs demoLib (some "nodir") (some ".txt") none
        = .error (.fileNotFoundError (some "nodir")) :=
  ⟨rfl, claim_C6_missing_dir_raises missingFs demoLib "nodir" ".txt" none rfl⟩

/-- **C7**: a successfully constructed pipeline over directory `d` with
extension filter `e` holds exactly the loaded sample arrays of the listed
entries whose names end with `e`, in listing order, and no others. -/
theorem claim_C7_corpus_exact (fs : FileSystem) (L : Librosa) (d e : String)
    (r0 : Option Nat) (p : FileParser) (files : List String)
    (h : FileParser.init fs L (some d) (some e) r0 = .ok p)
    (hl : fs.listing (some d) = some files) :
    p.data = (files.filter (fun f => strEndsWith f e)).map
      (fun f => L.loadAt (pathJoin (some d) f) librosaDefaultSr) := by
  by_cases he : e = ".wav"
  · subst he
    cases r0 with
    | none =>
      rw [init_wav_autodetect fs L d files hl] at h
      cases hg : get_sample_rate fs L (some d) ".wav" with
      | error err =>
        rw [hg] at h
        exact Except.noConfusion h
      | ok v =>
        rw [hg] at h
        have := Except.ok.inj h
        rw [← this]
    | some r =>
      rw [init_given_rate fs L d ".wav" r files hl] at h
      have := Except.ok.inj h
      rw [← this]
  · cases r0 with
    | none =>
      rw [init_no_rate_non_wav fs L d e files he hl] at h
      have := Except.ok.inj h
      rw [← this]
    | some r =>
      rw [init_given_rate fs L d e r files hl] at h
      have := Except.ok.inj h
      rw [← this]

theorem claim_C7_witness :
    FileParser.init wavFs demoLib (some "TestFiles") (some ".wav") (some 10025)
        = .ok demoP7
    ∧ wavFs.listing (some "TestFiles") = some ["a.wav", "b.txt", "c.wav"]
    ∧ demoP7.data = ((["a.wav", "b.txt", "c.wav"].filter
          (fun f => strEndsWith f ".wav")).map
        (fun f => demoLib.loadAt (pathJoin (some "TestFiles") f) librosaDefaultSr)) :=
  ⟨rfl, rfl,
    claim_C7_corpus_exact wavFs demoLib "TestFiles" ".wav" (some 10025) demoP7
      ["a.wav", "b.txt", "c.wav"] rfl rfl⟩
